import Mathlib

/-!
Shallow embedding of src/amazon_inventory.py (warehouse inventory ledger).

Records are CSV rows read by csv.DictReader, so every field is a string.
Each operation is modelled as a pure function; the observable effects of a
call (the Python return value, the caller's in-memory list after the call,
whether and what save_data wrote, whether the not-found notice was printed)
are collected in an OpResult structure.
-/

/-- One inventory row, with the eight fields of the CSV schema, in the field
order fixed by save_data (amazon_inventory.py line 63). All values are
strings, as produced by csv.DictReader and by the input() calls in main.py. -/
structure Record where
  id : String
  item : String
  gtin : String
  mpn : String
  brand : String
  quantity : String
  expiration_date : String
  price : String
deriving Repr, DecidableEq

/-- Observable outcome of one call to a mutating operation:
ret is the Python return value (none models Python None, some s a returned
record set); memory is the caller's list after the call (Python mutates the
list or its dicts in place, or leaves it alone when a local name is rebound);
written is some s when save_data was invoked with s during the call and none
when no durable write happened; notFound records whether the presence guard
printed its not-found notice and short-circuited. -/
structure OpResult where
  ret : Option (List Record)
  memory : List Record
  written : Option (List Record)
  notFound : Bool
deriving Repr, DecidableEq

/-- Header written by save_data (amazon_inventory.py line 63). -/
def FIELDNAMES : List String :=
  ["id", "item", "gtin", "mpn", "brand", "quantity", "expiration_date", "price"]

/-- A record serialized in fieldnames order, as csv.DictWriter.writerow does
for a dict holding exactly the eight schema keys. -/
def recordToRow (r : Record) : List String :=
  [r.id, r.item, r.gtin, r.mpn, r.brand, r.quantity, r.expiration_date, r.price]

/-- save_data (lines 55-67): writes the header row, then one row per record
in fieldnames order. The durable file is modelled as the list of its parsed
CSV rows (the csv module round-trips arbitrary field strings through its
quoting rules, so rows of fields are the faithful abstraction level). -/
def save_data (data : List Record) : List (List String) :=
  FIELDNAMES :: data.map recordToRow

/-- One loaded row as csv.DictReader produces it: the header keys paired with
this row's values in header order (a short row leaves trailing keys at the
restval None, modelled as none), and the rest of an over-long row (collected
by DictReader under its restkey). -/
structure RawRecord where
  fields : List (String × Option String)
  rest : List String
deriving Repr, DecidableEq

/-- DictReader's pairing of header keys with one row's values: a value for
each key while the row lasts, none (the restval) for the remaining keys. -/
def zipRow : List String → List String → List (String × Option String)
  | [], _ => []
  | k :: ks, [] => (k, none) :: zipRow ks []
  | k :: ks, v :: vs => (k, some v) :: zipRow ks vs

/-- load_data (lines 40-49): list(csv.DictReader(file)). The first row of the
file, when present, is consumed as the header; DictReader then skips blank
rows (its reading loop advances while row == []) and every remaining row
becomes one record, with short rows padded by the None restval and long rows
keeping their extra fields under the restkey. An empty file yields the empty
list. DictReader raises nothing on a wrong field count. -/
def load_data (file : List (List String)) : List RawRecord :=
  match file with
  | [] => []
  | header :: rows =>
      (rows.filter (fun row => !row.isEmpty)).map
        (fun row => ⟨zipRow header row, row.drop header.length⟩)

/-- Reads a loaded row back as a well-formed Record when it has exactly the
eight schema fields, each with a present value. -/
def rawToRecord (raw : RawRecord) : Option Record :=
  match raw with
  | ⟨[("id", some a), ("item", some b), ("gtin", some c), ("mpn", some d),
      ("brand", some e), ("quantity", some f), ("expiration_date", some g),
      ("price", some h)], []⟩ => some ⟨a, b, c, d, e, f, g, h⟩
  | _ => none

/-- ASCII lower-casing of one character, as str.lower acts on the ASCII
range (the repository's item names are ASCII). -/
def lowerChar (c : Char) : Char :=
  if c.toNat ≥ 65 ∧ c.toNat ≤ 90 then Char.ofNat (c.toNat + 32) else c

/-- str.lower on a whole string, character by character. -/
def lowerStr (s : String) : String :=
  ⟨s.data.map lowerChar⟩

/-- The outcome of the presence guard's short-circuit branch (lines 106-108):
print the notice, return None; the record set is untouched and nothing is
written. -/
def shortCircuit (data : List Record) : OpResult :=
  { ret := none, memory := data, written := none, notFound := true }

/-- check_item_present (lines 92-109) as a wrapper combinator. The guard reads
the target only from the keyword arguments: item = kwargs.get('item'). When
the 'item' keyword is absent (e.g. the name was passed positionally),
kwargs.get returns None and d['item'] == None is False for every string-valued
record, so the any() is vacuously false and the guard short-circuits; that
case is the none branch. With the keyword present, the guard scans for a
case-sensitive match and only then invokes the wrapped function. -/
def wrap_check (func : List Record → String → OpResult)
    (data : List Record) (kwItem : Option String) : OpResult :=
  match kwItem with
  | some item =>
      if data.any (fun d => d.item == item) then func data item
      else shortCircuit data
  | none => shortCircuit data

/-- add_item (lines 111-134): builds the new row from the caller-supplied
fields and the four generator-minted values (fake.uuid4 and friends, passed
here as explicit inputs genId/genGtin/genMpn/genBrand), appends it to the
list in place, saves, prints a success message, and falls off the end
(returning None). -/
def add_item (data : List Record) (item quantity expiration_date price : String)
    (genId genGtin genMpn genBrand : String) : OpResult :=
  let newData := data ++ [{ id := genId, item := item, gtin := genGtin,
                            mpn := genMpn, brand := genBrand,
                            quantity := quantity,
                            expiration_date := expiration_date,
                            price := price }]
  { ret := none, memory := newData, written := some newData, notFound := false }

/-- The body of remove_item (lines 143-153), reached only when the guard
passes. The list comprehension rebinds the LOCAL name data to the filtered
list — the caller's list object is never mutated — then save_data writes the
filtered list and the function returns None (no return statement). The filter
drops every record whose name case-insensitively equals item. -/
def remove_item_fn (data : List Record) (item : String) : OpResult :=
  { ret := none, memory := data,
    written := some (data.filter (fun d => lowerStr d.item != lowerStr item)),
    notFound := false }

/-- remove_item as callers see it: the body wrapped by check_item_present
(the progress_bar wrapper is cosmetic and alters nothing observable). -/
def remove_item (data : List Record) (kwItem : Option String) : OpResult :=
  wrap_check remove_item_fn data kwItem

/-- The body of update_item (lines 157-177), reached only when the guard
passes. Every record whose name case-sensitively equals item has each of
quantity, expiration_date, price overwritten when the corresponding argument
is not the None sentinel; the dicts are mutated in place, so the caller's
list reflects the change; then save_data writes the same list; no return
statement, so the value is None. -/
def update_item_fn (quantity expiration_date price : Option String)
    (data : List Record) (item : String) : OpResult :=
  let newData := data.map (fun d =>
    if d.item == item then
      { d with quantity := quantity.getD d.quantity,
               expiration_date := expiration_date.getD d.expiration_date,
               price := price.getD d.price }
    else d)
  { ret := none, memory := newData, written := some newData, notFound := false }

/-- update_item as callers see it: the body wrapped by check_item_present. -/
def update_item (data : List Record) (kwItem : Option String)
    (quantity expiration_date price : Option String) : OpResult :=
  wrap_check (update_item_fn quantity expiration_date price) data kwItem

/-- A calendar date as datetime.date holds it. -/
structure Date where
  year : Nat
  month : Nat
  day : Nat
deriving Repr, DecidableEq

/-- Length of a month, with the Gregorian leap rule, as datetime enforces. -/
def daysInMonth (year month : Nat) : Nat :=
  if month = 2 then
    if year % 4 = 0 ∧ (year % 100 ≠ 0 ∨ year % 400 = 0) then 29 else 28
  else if month = 4 ∨ month = 6 ∨ month = 9 ∨ month = 11 then 30
  else 31

/-- Splitting a character list at every dash, as str.split does for a
single-character separator (the empty string splits to one empty group). -/
def splitDash (cs : List Char) : List (List Char) :=
  match cs with
  | [] => [[]]
  | c :: rest =>
      if c = '-' then [] :: splitDash rest
      else
        match splitDash rest with
        | g :: gs => (c :: g) :: gs
        | [] => [[c]]

/-- A nonempty all-digit character group read as a decimal number; none
otherwise. -/
def digitGroupToNat (cs : List Char) : Option Nat :=
  if cs.isEmpty then none
  else if cs.all Char.isDigit then
    some (cs.foldl (fun n c => 10 * n + (c.toNat - 48)) 0)
  else none

/-- datetime.strptime(s, the dash-separated year-month-day format) followed by
.date(): three dash-separated decimal components, with the month, day and year
ranges datetime enforces; anything else raises ValueError, modelled as none. -/
def parseDate (s : String) : Option Date :=
  match splitDash s.data with
  | [y, m, d] =>
      match digitGroupToNat y, digitGroupToNat m, digitGroupToNat d with
      | some yn, some mn, some dn =>
          if 1 ≤ yn ∧ yn ≤ 9999 ∧ 1 ≤ mn ∧ mn ≤ 12 ∧ 1 ≤ dn ∧
             dn ≤ daysInMonth yn mn then
            some ⟨yn, mn, dn⟩
          else none
      | _, _, _ => none
  | _ => none

/-- Comparison of datetime.date values: lexicographic on year, month, day. -/
def Date.lt (a b : Date) : Bool :=
  if a.year = b.year then
    if a.month = b.month then Nat.blt a.day b.day
    else Nat.blt a.month b.month
  else Nat.blt a.year b.year

/-- Evaluation of the sort key of sort_by_expiration_date on every element
(Python's sorted computes all keys up front, raising on the first malformed
date): each record paired with its parsed expiration date, or none if any
record's date fails to parse. -/
def attachDates : List Record → Option (List (Record × Date))
  | [] => some []
  | d :: rest =>
      match parseDate d.expiration_date, attachDates rest with
      | some k, some ps => some ((d, k) :: ps)
      | _, _ => none

/-- Insert one keyed record into an already sorted list, after every element
whose key is not strictly greater — the placement a stable sort gives later
elements with equal keys. -/
def insertByKey (x : Record × Date) : List (Record × Date) → List (Record × Date)
  | [] => [x]
  | y :: ys => if Date.lt x.2 y.2 then x :: y :: ys else y :: insertByKey x ys

/-- Stable ascending sort by the attached date key, processing elements left
to right. Python's sorted is a stable ascending sort, and a stable sort's
output is determined by the key order alone, so this insertion sort computes
the same list sorted returns. -/
def stableSortByDate (l : List (Record × Date)) : List (Record × Date) :=
  l.foldl (fun acc x => insertByKey x acc) []

/-- sort_by_expiration_date (lines 179-189): sorted(data, key parsed from the
expiration_date field). A malformed date raises ValueError, modelled as the
error case (the DateParseError of the design's taxonomy). -/
def sort_by_expiration_date (data : List Record) : Except String (List Record) :=
  match attachDates data with
  | some pairs => Except.ok ((stableSortByDate pairs).map Prod.fst)
  | none => Except.error "DateParseError"

/-- get_full_report (lines 191-209): on an empty set, prints the no-items
notice and returns (ok none); otherwise sorts by expiration date and renders
the rows in sorted order (ok (some rows) holds the presentation order). -/
def get_full_report (data : List Record) : Except String (Option (List Record)) :=
  if data.isEmpty then Except.ok none
  else
    match sort_by_expiration_date data with
    | Except.ok s => Except.ok (some s)
    | Except.error e => Except.error e

/-- get_expired_items (lines 231-255) with the ambient clock injected as
today: selects every record whose parsed expiration date is strictly earlier
than today; if none qualifies, prints the none-expired notice (the Bool
component true) and returns the empty list; otherwise sorts the selection by
expiration date and returns it (Bool component false). -/
def get_expired_items (today : Date) (data : List Record) :
    Except String (List Record × Bool) :=
  match attachDates data with
  | none => Except.error "DateParseError"
  | some pairs =>
      let expired := (pairs.filter (fun p => Date.lt p.2 today)).map Prod.fst
      if expired.isEmpty then Except.ok ([], true)
      else
        match sort_by_expiration_date expired with
        | Except.ok s => Except.ok (s, false)
        | Except.error e => Except.error e

/-- A concrete record named Widget, for witnesses and counterexamples. -/
def w0 : Record :=
  { id := "u1", item := "Widget", gtin := "g1", mpn := "m1", brand := "Acme",
    quantity := "5", expiration_date := "2024-01-01", price := "3.50" }

/-- A concrete record named Gadget, for witnesses and counterexamples. -/
def g0 : Record :=
  { id := "u2", item := "Gadget", gtin := "g2", mpn := "m2", brand := "Acme",
    quantity := "7", expiration_date := "2023-06-01", price := "4.25" }

/-- A concrete record named widget in lower case, distinct from Widget under
case-sensitive comparison but equal under the case-insensitive one. -/
def lw0 : Record :=
  { id := "u3", item := "widget", gtin := "g3", mpn := "m3", brand := "Bolt",
    quantity := "2", expiration_date := "2023-06-01", price := "1.10" }

/-- A concrete record expiring the day before the fixed boundary clock. -/
def e9 : Record :=
  { id := "u4", item := "Milk", gtin := "g4", mpn := "m4", brand := "Farm",
    quantity := "1", expiration_date := "2024-01-09", price := "2.00" }

/-- A concrete record expiring exactly on the fixed boundary clock. -/
def e10 : Record :=
  { id := "u5", item := "Eggs", gtin := "g5", mpn := "m5", brand := "Farm",
    quantity := "6", expiration_date := "2024-01-10", price := "3.00" }

deriving instance DecidableEq for Except

theorem wrap_check_pass (func : List Record → String → OpResult)
    (data : List Record) (name : String)
    (h : data.any (fun d => d.item == name) = true) :
    wrap_check func data (some name) = func data name := by
  simp [wrap_check, h]

theorem wrap_check_fail (func : List Record → String → OpResult)
    (data : List Record) (name : String)
    (h : data.any (fun d => d.item == name) = false) :
    wrap_check func data (some name) = shortCircuit data := by
  simp [wrap_check, h]

/-- C1: when the presence guard finds a case-sensitive match for the target
name, remove produces (and durably writes) a set with zero records whose
name case-insensitively equals the target; when no case-sensitive match
exists, the caller's set is unchanged and no write happens. -/
theorem remove_correctness (data : List Record) (name : String) :
    (data.any (fun d => d.item == name) = true →
      ∃ out, (remove_item data (some name)).written = some out ∧
        out.all (fun d => !(lowerStr d.item == lowerStr name)) = true) ∧
    (data.any (fun d => d.item == name) = false →
      (remove_item data (some name)).memory = data ∧
      (remove_item data (some name)).written = none) := by
  constructor
  · intro h
    rw [remove_item, wrap_check_pass _ _ _ h]
    refine ⟨data.filter (fun d => lowerStr d.item != lowerStr name), rfl, ?_⟩
    simp only [List.all_eq_true, List.mem_filter, bne_iff_ne]
    intro d hd
    simpa using hd.2
  · intro h
    rw [remove_item, wrap_check_fail _ _ _ h]
    exact ⟨rfl, rfl⟩

/-- C1 witness: on the concrete set holding Widget, widget and Gadget,
removing Widget writes a set with no case-insensitive widget left, and
removing an absent name leaves the set alone with no write. -/
theorem remove_correctness_witness :
    (∃ out, (remove_item [w0, g0, lw0] (some "Widget")).written = some out ∧
      out.all (fun d => !(lowerStr d.item == lowerStr "Widget")) = true) ∧
    ((remove_item [w0, g0, lw0] (some "Nonexistent")).memory = [w0, g0, lw0] ∧
      (remove_item [w0, g0, lw0] (some "Nonexistent")).written = none) :=
  ⟨(remove_correctness [w0, g0, lw0] "Widget").1 (by decide),
   (remove_correctness [w0, g0, lw0] "Nonexistent").2 (by decide)⟩

/-- C4: with the target passed as the item keyword, when no record's name
case-sensitively equals the target, remove and update print the not-found
notice, leave the record set unmutated and write nothing; when a
case-sensitive match exists, each call is exactly its wrapped body. -/
theorem presence_guard (data : List Record) (name : String)
    (q e p : Option String) :
    (data.any (fun d => d.item == name) = false →
      remove_item data (some name) = shortCircuit data ∧
      update_item data (some name) q e p = shortCircuit data) ∧
    (data.any (fun d => d.item == name) = true →
      remove_item data (some name) = remove_item_fn data name ∧
      update_item data (some name) q e p =
        update_item_fn q e p data name) := by
  constructor
  · intro h
    exact ⟨wrap_check_fail _ _ _ h, wrap_check_fail _ _ _ h⟩
  · intro h
    exact ⟨wrap_check_pass _ _ _ h, wrap_check_pass _ _ _ h⟩

/-- C4 witness: at the concrete set, an absent name short-circuits both
operations, and a present name invokes both wrapped bodies. -/
theorem presence_guard_witness :
    (remove_item [w0, g0] (some "Nonexistent") = shortCircuit [w0, g0] ∧
      update_item [w0, g0] (some "Nonexistent") none none (some "9.99") =
        shortCircuit [w0, g0]) ∧
    (remove_item [w0, g0] (some "Widget") = remove_item_fn [w0, g0] "Widget" ∧
      update_item [w0, g0] (some "Widget") none none (some "9.99") =
        update_item_fn none none (some "9.99") [w0, g0] "Widget") :=
  ⟨(presence_guard [w0, g0] "Nonexistent" none none (some "9.99")).1 (by decide),
   (presence_guard [w0, g0] "Widget" none none (some "9.99")).2 (by decide)⟩

/-- C10: a call that does not pass the target through the item keyword (for
example, a positional call) reaches the guard with kwargs.get of item equal
to None, which matches no string-valued record, so remove and update always
short-circuit with the not-found notice, leave the set unmutated and write
nothing — even when a matching record exists in the set. -/
theorem guard_ignores_positional (data : List Record) (q e p : Option String) :
    remove_item data none = shortCircuit data ∧
    update_item data none q e p = shortCircuit data :=
  ⟨rfl, rfl⟩

/-- C2 refutation at a concrete input: removing Widget from the two-record
set saves the filtered list but, because the comprehension rebinds only the
local name and nothing is returned, the caller's in-memory list still holds
both records, so memory and the durable write disagree. -/
theorem remove_memory_store_divergence :
    (remove_item [w0, g0] (some "Widget")).written = some [g0] ∧
    (remove_item [w0, g0] (some "Widget")).memory = [w0, g0] ∧
    some ((remove_item [w0, g0] (some "Widget")).memory) ≠
      (remove_item [w0, g0] (some "Widget")).written := by
  refine ⟨by decide, by decide, by decide⟩

/-- C3 refutation at concrete inputs: all three mutating operations fall off
the end of their bodies and return None rather than the updated record set
(main.py nevertheless assigns the result of add and remove back to data). -/
theorem mutating_ops_return_none :
    (add_item [] "Laptop" "10" "2023-12-31" "499.99" "u9" "g9" "m9" "B").ret
        = none ∧
    (remove_item [w0, g0] (some "Widget")).ret = none ∧
    (update_item [w0, g0] (some "Widget") none none (some "9.99")).ret
        = none := by
  refine ⟨rfl, by decide, by decide⟩


theorem rawToRecord_saved_row (r : Record) :
    rawToRecord ⟨zipRow FIELDNAMES (recordToRow r),
      (recordToRow r).drop FIELDNAMES.length⟩ = some r := rfl

/-- C5: saving any well-formed record set and loading it back returns the
same records, with field values and order preserved (load composed with
save is the identity up to the RawRecord reading of a row). -/
theorem saved_rows_not_blank (R : List Record) :
    (R.map recordToRow).filter (fun row => !row.isEmpty)
      = R.map recordToRow := by
  refine List.filter_eq_self.mpr ?_
  intro row hrow
  obtain ⟨r, -, rfl⟩ := List.mem_map.mp hrow
  rfl

theorem load_save_round_trip (R : List Record) :
    (load_data (save_data R)).map rawToRecord = R.map some := by
  simp only [save_data, load_data, saved_rows_not_blank, List.map_map]
  induction R with
  | nil => rfl
  | cons r rs ih =>
      simp only [List.map_cons, Function.comp_apply, List.cons.injEq] at *
      exact ⟨rawToRecord_saved_row r, ih⟩

/-- C7 refutation at concrete inputs: a file whose single data row has only
three of the eight fields is not rejected — load returns one record with the
five missing fields at the None restval; a file with rows but no header row
silently consumes its first data row as the header. No read error exists on
either input. -/
theorem load_malformed_no_failure :
    load_data [FIELDNAMES, ["a", "b", "c"]] =
      [⟨[("id", some "a"), ("item", some "b"), ("gtin", some "c"),
         ("mpn", none), ("brand", none), ("quantity", none),
         ("expiration_date", none), ("price", none)], []⟩] ∧
    load_data [["a", "b", "c"], ["d", "e", "f", "g"]] =
      [⟨[("a", some "d"), ("b", some "e"), ("c", some "f")], ["g"]⟩] := by
  refine ⟨by decide, by decide⟩

theorem zipRow_length (ks vs : List String) :
    (zipRow ks vs).length = ks.length := by
  induction ks generalizing vs with
  | nil => rfl
  | cons k ks ih =>
      cases vs with
      | nil => simpa [zipRow] using ih []
      | cons v vs => simpa [zipRow] using ih vs

/-- C7 as amended: load reads the file in full and returns the empty
sequence when no records exist (empty file, header row only, or header
followed by nothing but blank rows — DictReader skips blank rows); a
malformed file is not rejected — every non-blank data row yields exactly one
loaded record, with a wrong field count absorbed by restval padding (each
loaded record carries one field per header key) rather than a read error. -/
theorem load_total_behavior :
    load_data [] = [] ∧
    load_data [FIELDNAMES] = [] ∧
    load_data [FIELDNAMES, []] = [] ∧
    (∀ (header : List String) (rows : List (List String)),
      (load_data (header :: rows)).length
        = (rows.filter (fun row => !row.isEmpty)).length) ∧
    (∀ (header : List String) (rows : List (List String)),
      (load_data (header :: rows)).all
        (fun raw => raw.fields.length == header.length) = true) := by
  refine ⟨rfl, rfl, rfl, ?_, ?_⟩
  · intro header rows
    simp [load_data]
  · intro header rows
    simp only [load_data, List.all_eq_true, List.mem_map]
    rintro raw ⟨row, _, rfl⟩
    simpa using zipRow_length header row

/-- C6: when the guard passes, update with the unset sentinel for some of
quantity, expiration date and price rewrites exactly the records whose name
case-sensitively equals the target, overwriting only the fields whose
argument is set and leaving every other field — and every other record —
untouched; the set keeps its length and order. -/
theorem update_frame (data : List Record) (name : String)
    (q e p : Option String)
    (h : data.any (fun d => d.item == name) = true) :
    (update_item data (some name) q e p).memory.length = data.length ∧
    ∀ i : Nat, ∀ d : Record, data[i]? = some d →
      (update_item data (some name) q e p).memory[i]? =
        some (if d.item == name then
          { d with quantity := q.getD d.quantity,
                   expiration_date := e.getD d.expiration_date,
                   price := p.getD d.price }
        else d) := by
  rw [update_item, wrap_check_pass _ _ _ h]
  constructor
  · simp [update_item_fn]
  · intro i d hd
    simp only [update_item_fn, List.getElem?_map, hd, Option.map_some']

/-- C6 witness: updating only the price of Widget in the concrete set leaves
the Gadget record and the Widget record's other fields byte-identical and
rewrites the price alone. -/
theorem update_frame_witness :
    (update_item [w0, g0] (some "Widget") none none (some "9.99")).memory.length
        = 2 ∧
    (update_item [w0, g0] (some "Widget") none none (some "9.99")).memory[0]?
        = some { w0 with price := "9.99" } ∧
    (update_item [w0, g0] (some "Widget") none none (some "9.99")).memory[1]?
        = some g0 := by
  have h := update_frame [w0, g0] "Widget" none none (some "9.99") (by decide)
  refine ⟨h.1, ?_, ?_⟩
  · have h0 := h.2 0 w0 rfl
    simpa using h0
  · have h1 := h.2 1 g0 rfl
    simpa using h1

theorem parseDate_jan09 : parseDate "2024-01-09" = some ⟨2024, 1, 9⟩ := by
  decide

theorem parseDate_jan10 : parseDate "2024-01-10" = some ⟨2024, 1, 10⟩ := by
  decide

theorem parseDate_jan01 : parseDate "2024-01-01" = some ⟨2024, 1, 1⟩ := by
  decide

theorem parseDate_jun01 : parseDate "2023-06-01" = some ⟨2023, 6, 1⟩ := by
  decide

/-- C8: with today fixed at the tenth of January 2024, a record dated the
ninth is selected as expired while a record dated the tenth is not (strict
inequality); and when no record qualifies, the filter prints the
none-expired notice and returns the empty sequence without raising. -/
theorem expiration_boundary (r9 r10 : Record)
    (h9 : r9.expiration_date = "2024-01-09")
    (h10 : r10.expiration_date = "2024-01-10") :
    get_expired_items ⟨2024, 1, 10⟩ [r9, r10] = Except.ok ([r9], false) ∧
    get_expired_items ⟨2024, 1, 10⟩ [r10] = Except.ok ([], true) := by
  constructor
  · simp [get_expired_items, attachDates, h9, h10, parseDate_jan09,
      parseDate_jan10, Date.lt, sort_by_expiration_date, stableSortByDate,
      insertByKey]
  · simp [get_expired_items, attachDates, h10, parseDate_jan10, Date.lt]

/-- C8 witness: at the concrete records dated the ninth and the tenth, the
boundary behaves as stated. -/
theorem expiration_boundary_witness :
    get_expired_items ⟨2024, 1, 10⟩ [e9, e10] = Except.ok ([e9], false) ∧
    get_expired_items ⟨2024, 1, 10⟩ [e10] = Except.ok ([], true) :=
  expiration_boundary e9 e10 rfl rfl

/-- C9: the sort behind the report and expiration views is stable and
ascending by parsed expiration date: with dates later, earlier, earlier
inserted in that order, both views present the two records sharing the
earlier date in their original relative order, ahead of the later one. -/
theorem report_sort_stable (r1 r2 r3 : Record)
    (h1 : r1.expiration_date = "2024-01-01")
    (h2 : r2.expiration_date = "2023-06-01")
    (h3 : r3.expiration_date = "2023-06-01") :
    sort_by_expiration_date [r1, r2, r3] = Except.ok [r2, r3, r1] ∧
    get_full_report [r1, r2, r3] = Except.ok (some [r2, r3, r1]) ∧
    get_expired_items ⟨2024, 6, 1⟩ [r1, r2, r3] =
      Except.ok ([r2, r3, r1], false) := by
  have hs : sort_by_expiration_date [r1, r2, r3] = Except.ok [r2, r3, r1] := by
    simp [sort_by_expiration_date, attachDates, h1, h2, h3, parseDate_jan01,
      parseDate_jun01, stableSortByDate, insertByKey, Date.lt]
  refine ⟨hs, ?_, ?_⟩
  · simp [get_full_report, hs]
  · simp [get_expired_items, attachDates, h1, h2, h3, parseDate_jan01,
      parseDate_jun01, Date.lt, hs]

/-- C9 witness: at the three concrete records carrying those dates, both
views list the two June records in insertion order before the January one. -/
theorem report_sort_stable_witness :
    sort_by_expiration_date [w0, g0, lw0] = Except.ok [g0, lw0, w0] ∧
    get_full_report [w0, g0, lw0] = Except.ok (some [g0, lw0, w0]) ∧
    get_expired_items ⟨2024, 6, 1⟩ [w0, g0, lw0] =
      Except.ok ([g0, lw0, w0], false) :=
  report_sort_stable w0 g0 lw0 rfl rfl rfl
